import Mathlib

/-!
Verification development for the PIR motion-sensor driver
(`src/Application/Sensor/pir.c`).

The driver is embedded shallowly:

* the 25-bit configuration register assembled in `pirInit` becomes a pure
  function on `Nat` fields, using the same mask-shift-or structure as the C;
* the GPIO serial transmission becomes a trace-producing state machine whose
  events are `(pin level, microseconds held)` pairs;
* the poll state machine, interrupt handler and response handler become pure
  transition functions on an explicit driver state, returning a list of
  observable effects (scheduler calls, traces, JSON-object allocation and
  release, asynchronous sends);
* allocation failure of the messaging layer is an explicit boolean input.

Constants that live in headers outside `src/` (scheduler state codes, HAL
pin masks, interrupt priority, the `TINT32` template sentinel) are modelled
from the spec; each such definition says so in its doc comment.
-/

namespace Pir

/-! ## Constants (`pir.c` lines 8-24 and modelled header constants) -/

/-- Constant `STATE_MOTION_CHECK = 0` — local state of the driver state machine. -/
def STATE_MOTION_CHECK : Int := 0

/-- Modelled from the spec: `STATE_ACTIVATED` is a scheduler-owned state code
declared in the scheduler header (not under `src/`); the spec only requires it
to be distinct from the other state codes. -/
def STATE_ACTIVATED : Int := 1

/-- Modelled from the spec: `STATE_DEACTIVATED` is a scheduler-owned state code
declared in the scheduler header (not under `src/`); the spec only requires it
to be distinct from the other state codes. -/
def STATE_DEACTIVATED : Int := 2

/-- Constant `REQUESTID_TEMPLATE = 1` — fixed correlation ID of the template
registration request. -/
def REQUESTID_TEMPLATE : Int := 1

/-- Constant `SENSORDATA_NOTEFILE`, the notefile name `*#motion.qo`. -/
def SENSORDATA_NOTEFILE : String := "*#motion.qo"

/-- Modelled from the spec: `TINT32` is the 32-bit-signed-integer placeholder
sentinel of the messaging layer (declared in a header not under `src/`); its
numeric value is irrelevant to the claims. -/
def TINT32 : Nat := 12

/-- Modelled from the spec: `PIR_DIRECT_LINK_Pin` is the GPIO pin bit mask of
the sensor wake line, declared in a board header not under `src/`.  HAL pin
masks are single-bit masks inside a 16-bit pin set. -/
def PIR_DIRECT_LINK_Pin : Nat := 1 <<< 5

/-- Modelled from the spec: the fixed NVIC priority used for the wake-line
interrupt, declared in a board header not under `src/`. -/
def PIR_DIRECT_LINK_IT_PRIORITY : Nat := 15

/-! ## Configuration register assembly (`pirInit`, lines 52-140)

The C code starts from `configurationRegister = 0` and ORs in each field,
masked to its documented width and shifted to its documented offset.  The
function below keeps that exact structure, generalised over the field values;
`pirConfigurationRegister` instantiates it at the seven fixed tuning constants
(plus the two reserved fields and the pulse-detection mode). -/

def mkConfigurationRegister (threshold blindTime pulseCounter windowTime
    operationModes signalSource reserved1 hpfCutoff reserved2
    pulseDetectionMode : Nat) : Nat :=
  0 ||| ((threshold &&& 0xff) <<< 17)
    ||| ((blindTime &&& 0x0f) <<< 13)
    ||| ((pulseCounter &&& 0x03) <<< 11)
    ||| ((windowTime &&& 0x03) <<< 9)
    ||| ((operationModes &&& 0x03) <<< 7)
    ||| ((signalSource &&& 0x03) <<< 5)
    ||| ((reserved1 &&& 0x03) <<< 3)
    ||| ((hpfCutoff &&& 0x01) <<< 2)
    ||| ((reserved2 &&& 0x01) <<< 1)
    ||| ((pulseDetectionMode &&& 0x01) <<< 0)

/-- The concrete register `pirInit` assembles: threshold 24, blind time 2,
pulse counter 2, window time 3, operation mode 2 (wake up), signal source 0
(band-pass), reserved1 2, HPF cut-off 0, reserved2 0, pulse detection mode 0. -/
def pirConfigurationRegister : Nat :=
  mkConfigurationRegister 24 2 2 3 2 0 2 0 0 0

/-- The documented field regions of the configuration register, as shifted
masks: threshold [24:17], blind time [16:13], pulse counter [12:11], window
time [10:9], operation mode [8:7], signal source [6:5], reserved1 [4:3],
HPF cut-off [2], reserved2 [1], pulse detection mode [0]. -/
def configFieldMasks : List Nat :=
  [0xff <<< 17, 0x0f <<< 13, 0x03 <<< 11, 0x03 <<< 9, 0x03 <<< 7,
   0x03 <<< 5, 0x03 <<< 3, 0x01 <<< 2, 0x01 <<< 1, 0x01 <<< 0]

end Pir

open Pir

/-! ## Arithmetic normal form of the register assembly -/

theorem and_mask_255 (x : Nat) : x &&& 255 = x % 2 ^ 8 := by
  rw [show (255 : Nat) = 2 ^ 8 - 1 by norm_num, Nat.and_pow_two_sub_one_eq_mod]

theorem and_mask_15 (x : Nat) : x &&& 15 = x % 2 ^ 4 := by
  rw [show (15 : Nat) = 2 ^ 4 - 1 by norm_num, Nat.and_pow_two_sub_one_eq_mod]

theorem and_mask_3 (x : Nat) : x &&& 3 = x % 2 ^ 2 := by
  rw [show (3 : Nat) = 2 ^ 2 - 1 by norm_num, Nat.and_pow_two_sub_one_eq_mod]

theorem and_mask_1 (x : Nat) : x &&& 1 = x % 2 ^ 1 := by
  rw [Nat.and_one_is_mod]
  norm_num

theorem or_disjoint_eq_add (k x y : Nat) (hx : 2 ^ k ∣ x) (hy : y < 2 ^ k) :
    x ||| y = x + y := by
  obtain ⟨m, rfl⟩ := hx
  exact (Nat.mul_add_lt_is_or hy m).symm

/-- The OR-of-shifted-masked-fields assembly of `pirInit` equals the weighted
sum of the fields reduced to their documented widths: the fields occupy
disjoint bit regions. -/
theorem mkConfigurationRegister_eq_sum (t bl pc wt om ss r1 hc r2 pm : Nat) :
    mkConfigurationRegister t bl pc wt om ss r1 hc r2 pm =
      t % 2 ^ 8 * 2 ^ 17 + bl % 2 ^ 4 * 2 ^ 13 + pc % 2 ^ 2 * 2 ^ 11 +
        wt % 2 ^ 2 * 2 ^ 9 + om % 2 ^ 2 * 2 ^ 7 + ss % 2 ^ 2 * 2 ^ 5 +
        r1 % 2 ^ 2 * 2 ^ 3 + hc % 2 ^ 1 * 2 ^ 2 + r2 % 2 ^ 1 * 2 ^ 1 +
        pm % 2 ^ 1 * 2 ^ 0 := by
  simp only [mkConfigurationRegister, and_mask_255, and_mask_15, and_mask_3, and_mask_1,
    Nat.shiftLeft_eq, Nat.zero_or]
  rw [or_disjoint_eq_add 17 (t % 2 ^ 8 * 2 ^ 17) (bl % 2 ^ 4 * 2 ^ 13)
        (by omega) (by omega),
      or_disjoint_eq_add 13 (t % 2 ^ 8 * 2 ^ 17 + bl % 2 ^ 4 * 2 ^ 13)
        (pc % 2 ^ 2 * 2 ^ 11) (by omega) (by omega),
      or_disjoint_eq_add 11
        (t % 2 ^ 8 * 2 ^ 17 + bl % 2 ^ 4 * 2 ^ 13 + pc % 2 ^ 2 * 2 ^ 11)
        (wt % 2 ^ 2 * 2 ^ 9) (by omega) (by omega),
      or_disjoint_eq_add 9
        (t % 2 ^ 8 * 2 ^ 17 + bl % 2 ^ 4 * 2 ^ 13 + pc % 2 ^ 2 * 2 ^ 11 +
          wt % 2 ^ 2 * 2 ^ 9)
        (om % 2 ^ 2 * 2 ^ 7) (by omega) (by omega),
      or_disjoint_eq_add 7
        (t % 2 ^ 8 * 2 ^ 17 + bl % 2 ^ 4 * 2 ^ 13 + pc % 2 ^ 2 * 2 ^ 11 +
          wt % 2 ^ 2 * 2 ^ 9 + om % 2 ^ 2 * 2 ^ 7)
        (ss % 2 ^ 2 * 2 ^ 5) (by omega) (by omega),
      or_disjoint_eq_add 5
        (t % 2 ^ 8 * 2 ^ 17 + bl % 2 ^ 4 * 2 ^ 13 + pc % 2 ^ 2 * 2 ^ 11 +
          wt % 2 ^ 2 * 2 ^ 9 + om % 2 ^ 2 * 2 ^ 7 + ss % 2 ^ 2 * 2 ^ 5)
        (r1 % 2 ^ 2 * 2 ^ 3) (by omega) (by omega),
      or_disjoint_eq_add 3
        (t % 2 ^ 8 * 2 ^ 17 + bl % 2 ^ 4 * 2 ^ 13 + pc % 2 ^ 2 * 2 ^ 11 +
          wt % 2 ^ 2 * 2 ^ 9 + om % 2 ^ 2 * 2 ^ 7 + ss % 2 ^ 2 * 2 ^ 5 +
          r1 % 2 ^ 2 * 2 ^ 3)
        (hc % 2 ^ 1 * 2 ^ 2) (by omega) (by omega),
      or_disjoint_eq_add 2
        (t % 2 ^ 8 * 2 ^ 17 + bl % 2 ^ 4 * 2 ^ 13 + pc % 2 ^ 2 * 2 ^ 11 +
          wt % 2 ^ 2 * 2 ^ 9 + om % 2 ^ 2 * 2 ^ 7 + ss % 2 ^ 2 * 2 ^ 5 +
          r1 % 2 ^ 2 * 2 ^ 3 + hc % 2 ^ 1 * 2 ^ 2)
        (r2 % 2 ^ 1 * 2 ^ 1) (by omega) (by omega),
      or_disjoint_eq_add 1
        (t % 2 ^ 8 * 2 ^ 17 + bl % 2 ^ 4 * 2 ^ 13 + pc % 2 ^ 2 * 2 ^ 11 +
          wt % 2 ^ 2 * 2 ^ 9 + om % 2 ^ 2 * 2 ^ 7 + ss % 2 ^ 2 * 2 ^ 5 +
          r1 % 2 ^ 2 * 2 ^ 3 + hc % 2 ^ 1 * 2 ^ 2 + r2 % 2 ^ 1 * 2 ^ 1)
        (pm % 2 ^ 1 * 2 ^ 0) (by omega) (by omega)]

/-- Claim C1: the configuration register assembled by `pirInit` places each
field, masked to its documented width, at its documented bit offset (threshold
at bits [24:17], blind time [16:13], pulse counter [12:11], window time
[10:9], operation mode [8:7], signal source [6:5], reserved1 [4:3], HPF
cut-off [2], reserved2 [1], pulse detection mode [0]); the documented field
regions are pairwise disjoint, the assembled value fits in 25 bits, and the
concrete register of `pirInit` is this assembly applied to the seven fixed
tuning constants (with the reserved fields at their documented values). -/
theorem pirInit_configurationRegister_fields (t bl pc wt om ss r1 hc r2 pm : Nat) :
    (∀ i, i < 8 → (mkConfigurationRegister t bl pc wt om ss r1 hc r2 pm).testBit (17 + i)
        = t.testBit i)
  ∧ (∀ i, i < 4 → (mkConfigurationRegister t bl pc wt om ss r1 hc r2 pm).testBit (13 + i)
        = bl.testBit i)
  ∧ (∀ i, i < 2 → (mkConfigurationRegister t bl pc wt om ss r1 hc r2 pm).testBit (11 + i)
        = pc.testBit i)
  ∧ (∀ i, i < 2 → (mkConfigurationRegister t bl pc wt om ss r1 hc r2 pm).testBit (9 + i)
        = wt.testBit i)
  ∧ (∀ i, i < 2 → (mkConfigurationRegister t bl pc wt om ss r1 hc r2 pm).testBit (7 + i)
        = om.testBit i)
  ∧ (∀ i, i < 2 → (mkConfigurationRegister t bl pc wt om ss r1 hc r2 pm).testBit (5 + i)
        = ss.testBit i)
  ∧ (∀ i, i < 2 → (mkConfigurationRegister t bl pc wt om ss r1 hc r2 pm).testBit (3 + i)
        = r1.testBit i)
  ∧ (mkConfigurationRegister t bl pc wt om ss r1 hc r2 pm).testBit 2 = hc.testBit 0
  ∧ (mkConfigurationRegister t bl pc wt om ss r1 hc r2 pm).testBit 1 = r2.testBit 0
  ∧ (mkConfigurationRegister t bl pc wt om ss r1 hc r2 pm).testBit 0 = pm.testBit 0
  ∧ configFieldMasks.Pairwise (fun a b => a &&& b = 0)
  ∧ mkConfigurationRegister t bl pc wt om ss r1 hc r2 pm < 2 ^ 25
  ∧ pirConfigurationRegister = mkConfigurationRegister 24 2 2 3 2 0 2 0 0 0 := by
  refine ⟨?_, ?_, ?_, ?_, ?_, ?_, ?_, ?_, ?_, ?_, ?_, ?_, rfl⟩
  · intro i hi
    interval_cases i <;>
      · rw [mkConfigurationRegister_eq_sum]
        simp only [Nat.testBit_to_div_mod, decide_eq_decide]
        omega
  · intro i hi
    interval_cases i <;>
      · rw [mkConfigurationRegister_eq_sum]
        simp only [Nat.testBit_to_div_mod, decide_eq_decide]
        omega
  · intro i hi
    interval_cases i <;>
      · rw [mkConfigurationRegister_eq_sum]
        simp only [Nat.testBit_to_div_mod, decide_eq_decide]
        omega
  · intro i hi
    interval_cases i <;>
      · rw [mkConfigurationRegister_eq_sum]
        simp only [Nat.testBit_to_div_mod, decide_eq_decide]
        omega
  · intro i hi
    interval_cases i <;>
      · rw [mkConfigurationRegister_eq_sum]
        simp only [Nat.testBit_to_div_mod, decide_eq_decide]
        omega
  · intro i hi
    interval_cases i <;>
      · rw [mkConfigurationRegister_eq_sum]
        simp only [Nat.testBit_to_div_mod, decide_eq_decide]
        omega
  · intro i hi
    interval_cases i <;>
      · rw [mkConfigurationRegister_eq_sum]
        simp only [Nat.testBit_to_div_mod, decide_eq_decide]
        omega
  · rw [mkConfigurationRegister_eq_sum]
    simp only [Nat.testBit_to_div_mod, decide_eq_decide]
    omega
  · rw [mkConfigurationRegister_eq_sum]
    simp only [Nat.testBit_to_div_mod, decide_eq_decide]
    omega
  · rw [mkConfigurationRegister_eq_sum]
    simp only [Nat.testBit_to_div_mod, decide_eq_decide]
    omega
  · decide
  · rw [mkConfigurationRegister_eq_sum]
    omega

/-- Witness for C1: the field-placement equations instantiated at the
concrete tuning constants of `pirInit`. -/
theorem pirInit_configurationRegister_fields_witness :
    pirConfigurationRegister.testBit (17 + 3) = Nat.testBit 24 3 ∧
    pirConfigurationRegister.testBit (13 + 1) = Nat.testBit 2 1 ∧
    pirConfigurationRegister < 2 ^ 25 := by
  obtain ⟨h1, h2, _, _, _, _, _, _, _, _, _, hlt, heq⟩ :=
    pirInit_configurationRegister_fields 24 2 2 3 2 0 2 0 0 0
  exact ⟨heq ▸ h1 3 (by decide), heq ▸ h2 1 (by decide), heq ▸ hlt⟩

/-! ## GPIO serial transmission (`pirInit`, lines 142-154) -/

namespace Pir

/-- State of the serial-input GPIO line together with the recorded
transmission trace: each delay appends the pair
(current pin level, microseconds held). -/
structure GpioTrace where
  pin : Bool
  events : List (Bool × Nat)
deriving DecidableEq

/-- Embedding of `HAL_GPIO_WritePin` on the serial-in pin: set the line level. -/
def writePin (b : Bool) (t : GpioTrace) : GpioTrace :=
  { t with pin := b }

/-- Embedding of `HAL_DelayUs`: the current level is held for `d` microseconds. -/
def delayUs (d : Nat) (t : GpioTrace) : GpioTrace :=
  { t with events := t.events ++ [(t.pin, d)] }

/-- One iteration of the bit loop of `pirInit` (lines 144-152): drive low,
wait 5µs, drive high, wait 1µs, drive the value of bit `i` of the register
(the C tests it as `(configurationRegister & (1<<i)) != 0`), wait 100µs. -/
def sendBit (cfg i : Nat) (t : GpioTrace) : GpioTrace :=
  delayUs 100 (writePin (decide (cfg &&& (1 <<< i) ≠ 0))
    (delayUs 1 (writePin true (delayUs 5 (writePin false t)))))

/-- The serial transmission of `pirInit` (lines 142-154) for register value
`cfg`: the pin starts low (it was driven low during GPIO setup, line 42), is
held low 750µs, the 25 bits are sent with `i` running from 24 down to 0, and
the line is finally driven low and held 750µs to latch. -/
def pirSend (cfg : Nat) : GpioTrace :=
  let t0 : GpioTrace := { pin := false, events := [] }
  let t1 := delayUs 750 t0
  let t2 := (List.range 25).reverse.foldl (fun t i => sendBit cfg i t) t1
  delayUs 750 (writePin false t2)

/-- The transmission actually performed by `pirInit`. -/
def pirInitTrace : GpioTrace := pirSend pirConfigurationRegister

end Pir

theorem decide_and_shift_ne_zero (x i : Nat) :
    decide (x &&& (1 <<< i) ≠ 0) = x.testBit i := by
  rw [Nat.shiftLeft_eq, one_mul, Nat.and_two_pow]
  cases h : x.testBit i
  · simp
  · simp [(Nat.two_pow_pos i).ne']

/-- Claim C2: for any configuration value, the GPIO transmission performed by
`pirInit`, recorded as (pin level, duration) pairs, is exactly: low for
750µs; then for each of the 25 bits in order from bit 24 down to bit 0: low
for 5µs, high for 1µs, then the bit's value held for 100µs; then low for
750µs.  The trace is a function of the register value alone, hence
deterministic. -/
theorem pirInit_transmission_sequence (cfg : Nat) :
    (Pir.pirSend cfg).events =
      [(false, 750)] ++
        ((List.range 25).reverse.map fun i =>
          [(false, 5), (true, 1), (cfg.testBit i, 100)]).flatten ++
      [(false, 750)] := by
  have hr : (List.range 25).reverse = [24, 23, 22, 21, 20, 19, 18, 17, 16, 15,
      14, 13, 12, 11, 10, 9, 8, 7, 6, 5, 4, 3, 2, 1, 0] := by decide
  set_option maxRecDepth 4000 in
  simp only [Pir.pirSend, hr]
  set_option maxRecDepth 4000 in
  simp only [List.foldl_cons, List.foldl_nil]
  set_option maxRecDepth 4000 in
  simp only [Pir.sendBit, decide_and_shift_ne_zero]
  set_option maxRecDepth 4000 in
  simp [Pir.writePin, Pir.delayUs]

/-! ## Driver state, requests and observable effects (`pir.c` lines 21-24,
189-335) -/

namespace Pir

/-- Driver-global mutable state (`pir.c` lines 20-24): the template-registered
flag and the motion-event counter. -/
structure PirState where
  templateRegistered : Bool
  motionEvents : Nat
deriving DecidableEq

/-- An outbound structured request: operation name, optional correlation ID
(the `id` field echoed by the notecard), optional `file` field, numeric body
fields, and whether a correlated response is expected (the second argument of
`noteSendToGatewayAsync`). -/
structure Request where
  op : String
  id : Option Int
  file : Option String
  body : List (String × Nat)
  expectResponse : Bool
deriving DecidableEq

/-- A response object as read by `pirResponse`: `JGetString rsp "err"` yields
the empty string when the field is absent, and `JGetInt rsp "id"` yields `0`
when absent, so both are total fields here. -/
structure Rsp where
  err : String
  id : Int
deriving DecidableEq

/-- Observable effects of a driver entry point, in program order: JSON object
allocation and release, asynchronous sends, the three scheduler calls, trace
output (`traceValue pre post n` renders `pre`, then `n`, then `post`), and
re-arming of the wake interrupt. -/
inductive Effect where
  | jAlloc : Effect
  | jDelete : Effect
  | sendToGatewayAsync : Request → Effect
  | schedSetCompletionState : Int → Int → Int → Effect
  | schedSetState : Int → Int → String → Effect
  | schedActivateNowFromISR : Int → Bool → Int → Effect
  | traceEvt : String → Effect
  | traceValue : String → String → Nat → Effect
  | resetInterruptEvt : Effect
deriving DecidableEq

/-- Number of successful JSON-object allocations recorded in an effect list. -/
def countAlloc (l : List Effect) : Nat := l.count .jAlloc

/-- Number of `JDelete` releases recorded in an effect list. -/
def countDelete (l : List Effect) : Nat := l.count .jDelete

/-- The asynchronous sends recorded in an effect list. -/
def sends (l : List Effect) : List Effect :=
  l.filter fun e =>
    match e with
    | .sendToGatewayAsync _ => true
    | _ => false

/-- What the scheduler/log side can observe of an effect list: the scheduler
calls and the trace output, without the internal allocation bookkeeping and
without the radio traffic. -/
def schedulerView (l : List Effect) : List Effect :=
  l.filter fun e =>
    match e with
    | .jAlloc => false
    | .jDelete => false
    | .sendToGatewayAsync _ => false
    | _ => true

/-- Embedding of `registerNotefileTemplate` (lines 221-258).  `reqOk` and `bodyOk` say
whether the `NoteNewRequest` and `JCreateObject` allocations succeed.  On
request-allocation failure nothing was allocated and the function returns
false; on body-allocation failure the request is released with `JDelete` and
the function returns false; otherwise the template request (correlation ID
`REQUESTID_TEMPLATE`, file `SENSORDATA_NOTEFILE`, body template
`count = TINT32`, response expected) is sent.  The function reads and writes
neither driver global, so the state passes through unchanged. -/
def registerNotefileTemplate (reqOk bodyOk : Bool) (s : PirState) :
    Bool × PirState × List Effect :=
  if reqOk = false then
    (false, s, [])
  else if bodyOk = false then
    (false, s, [.jAlloc, .jDelete])
  else
    (true, s,
      [.jAlloc, .jAlloc,
       .sendToGatewayAsync
         { op := "note.template", id := some REQUESTID_TEMPLATE,
           file := some SENSORDATA_NOTEFILE, body := [("count", TINT32)],
           expectResponse := true }])

/-- Embedding of `addNote` (lines 291-319).  After both allocations succeed the function
captures `motionEvents` into `count`, zeroes `motionEvents`, and sends a
`note.add` request carrying the captured count, expecting no response.  On
either allocation failure it returns before the counter is read or zeroed. -/
def addNote (reqOk bodyOk : Bool) (s : PirState) : PirState × List Effect :=
  if reqOk = false then
    (s, [])
  else if bodyOk = false then
    (s, [.jAlloc, .jDelete])
  else
    ({ s with motionEvents := 0 },
     [.jAlloc, .jAlloc,
      .sendToGatewayAsync
        { op := "note.add", id := none, file := some SENSORDATA_NOTEFILE,
          body := [("count", s.motionEvents)], expectResponse := false }])

/-- Embedding of `pirPoll` (lines 189-218): the `switch` on the scheduler-supplied state.
The `STATE_ACTIVATED` case breaks out after requesting template registration
only when the template is not yet registered; otherwise it falls through to
the `STATE_MOTION_CHECK` case.  Any other state value matches no case. -/
def pirPoll (sensorID : Int) (state : Int) (reqOk bodyOk : Bool) (s : PirState) :
    PirState × List Effect :=
  if state = STATE_ACTIVATED ∧ s.templateRegistered = false then
    let r := registerNotefileTemplate reqOk bodyOk s
    (r.2.1, r.2.2 ++
      [.schedSetCompletionState sensorID STATE_ACTIVATED STATE_MOTION_CHECK,
       .traceEvt "pir: template registration request"])
  else if state = STATE_ACTIVATED ∨ state = STATE_MOTION_CHECK then
    if s.motionEvents = 0 then
      (s, [.schedSetState sensorID STATE_DEACTIVATED "pir: completed"])
    else
      let r := addNote reqOk bodyOk s
      (r.1, [.traceValue "pir: " " motion events sensed" s.motionEvents] ++ r.2 ++
        [.schedSetCompletionState sensorID STATE_MOTION_CHECK STATE_MOTION_CHECK,
         .traceEvt "pir: note queued"])
  else (s, [])

/-- Embedding of `pirResponse` (lines 261-288): timeout (`rsp == NULL`), error string
(`err[0] != '\0'`), then the `switch` on the echoed correlation ID whose only
case is `REQUESTID_TEMPLATE`. -/
def pirResponse (rsp : Option Rsp) (s : PirState) : PirState × List Effect :=
  match rsp with
  | none => (s, [.traceEvt "pir: response timeout"])
  | some r =>
    if r.err ≠ "" then
      (s, [.traceEvt "sensor error response: ", .traceEvt r.err])
    else if r.id = REQUESTID_TEMPLATE then
      ({ s with templateRegistered := true },
       [.traceEvt "pir: SUCCESSFUL template registration"])
    else (s, [])

/-- Embedding of `pirISR` (lines 322-335): act only when the wake-line bit is in the
delivered pin set; then increment the counter, re-arm the interrupt and, when
the scheduler reports the sensor deactivated (`schedState` is the value
`schedGetState` returns), request immediate activation into
`STATE_MOTION_CHECK`.  `motionEvents` is a `uint32_t` (line 24), so the
increment `motionEvents++` (line 327) wraps modulo `2 ^ 32`. -/
def pirISR (sensorID : Int) (pins : Nat) (schedState : Int) (s : PirState) :
    PirState × List Effect :=
  if pins &&& PIR_DIRECT_LINK_Pin ≠ 0 then
    ({ s with motionEvents := (s.motionEvents + 1) % 2 ^ 32 },
     [.resetInterruptEvt] ++
       (if schedState = STATE_DEACTIVATED then
          [.schedActivateNowFromISR sensorID true STATE_MOTION_CHECK]
        else []))
  else (s, [])

/-- Iterate `n` consecutive `pirISR` invocations with no intervening report. -/
def pirISRIter : Nat → Int → Nat → Int → PirState → PirState
  | 0, _, _, _, s => s
  | n + 1, sensorID, pins, schedState, s =>
      pirISRIter n sensorID pins schedState (pirISR sensorID pins schedState s).1

end Pir

/-! ## Claims about the accumulator / state machine -/

/-- Claim C3: for every starting value of the motion-event counter, a
successful `addNote` (both allocations succeed) sends a report whose count
field equals exactly the pre-reset counter value and leaves the counter at 0;
the value sent is by construction the value that was zeroed. -/
theorem addNote_sends_count_and_zeroes (s : PirState) :
    addNote true true s =
      ({ s with motionEvents := 0 },
       [.jAlloc, .jAlloc,
        .sendToGatewayAsync
          { op := "note.add", id := none, file := some SENSORDATA_NOTEFILE,
            body := [("count", s.motionEvents)], expectResponse := false }]) := by
  simp [addNote]

/-- Claim C4: the transition function of `pirPoll`.  In `STATE_ACTIVATED` with
the template not registered it sends the template-registration request,
requests re-invocation in `STATE_MOTION_CHECK` upon completion, and performs
no motion-check work (state, in particular the counter, is untouched); in
`STATE_ACTIVATED` with the template registered it behaves exactly as
`STATE_MOTION_CHECK` in the same invocation; in `STATE_MOTION_CHECK` with a
zero counter it requests deactivation; otherwise it sends the aggregate
report and requests re-invocation in `STATE_MOTION_CHECK`.  Each case is a
single equation on the (non-recursive, loop-free) transition function. -/
theorem pirPoll_transition (sensorID : Int) (reqOk bodyOk : Bool) (s : PirState) :
    (s.templateRegistered = false →
      pirPoll sensorID STATE_ACTIVATED true true s =
        (s, [.jAlloc, .jAlloc,
             .sendToGatewayAsync
               { op := "note.template", id := some REQUESTID_TEMPLATE,
                 file := some SENSORDATA_NOTEFILE, body := [("count", TINT32)],
                 expectResponse := true },
             .schedSetCompletionState sensorID STATE_ACTIVATED STATE_MOTION_CHECK,
             .traceEvt "pir: template registration request"]))
  ∧ (s.templateRegistered = true →
      pirPoll sensorID STATE_ACTIVATED reqOk bodyOk s =
        pirPoll sensorID STATE_MOTION_CHECK reqOk bodyOk s)
  ∧ (s.motionEvents = 0 →
      pirPoll sensorID STATE_MOTION_CHECK reqOk bodyOk s =
        (s, [.schedSetState sensorID STATE_DEACTIVATED "pir: completed"]))
  ∧ (s.motionEvents ≠ 0 →
      pirPoll sensorID STATE_MOTION_CHECK true true s =
        ({ s with motionEvents := 0 },
         [.traceValue "pir: " " motion events sensed" s.motionEvents,
          .jAlloc, .jAlloc,
          .sendToGatewayAsync
            { op := "note.add", id := none, file := some SENSORDATA_NOTEFILE,
              body := [("count", s.motionEvents)], expectResponse := false },
          .schedSetCompletionState sensorID STATE_MOTION_CHECK STATE_MOTION_CHECK,
          .traceEvt "pir: note queued"])) := by
  refine ⟨?_, ?_, ?_, ?_⟩ <;> intro h <;>
    simp [pirPoll, registerNotefileTemplate, addNote, h,
      STATE_ACTIVATED, STATE_MOTION_CHECK]

/-- Witness for C4: all four cases at concrete states. -/
theorem pirPoll_transition_witness :
    pirPoll 7 STATE_ACTIVATED true true ⟨false, 3⟩ =
      (⟨false, 3⟩,
       [.jAlloc, .jAlloc,
        .sendToGatewayAsync
          { op := "note.template", id := some REQUESTID_TEMPLATE,
            file := some SENSORDATA_NOTEFILE, body := [("count", TINT32)],
            expectResponse := true },
        .schedSetCompletionState 7 STATE_ACTIVATED STATE_MOTION_CHECK,
        .traceEvt "pir: template registration request"])
  ∧ pirPoll 7 STATE_ACTIVATED true true ⟨true, 5⟩ =
      pirPoll 7 STATE_MOTION_CHECK true true ⟨true, 5⟩
  ∧ pirPoll 7 STATE_MOTION_CHECK true true ⟨true, 0⟩ =
      (⟨true, 0⟩, [.schedSetState 7 STATE_DEACTIVATED "pir: completed"])
  ∧ pirPoll 7 STATE_MOTION_CHECK true true ⟨true, 5⟩ =
      (⟨true, 0⟩,
       [.traceValue "pir: " " motion events sensed" 5,
        .jAlloc, .jAlloc,
        .sendToGatewayAsync
          { op := "note.add", id := none, file := some SENSORDATA_NOTEFILE,
            body := [("count", 5)], expectResponse := false },
        .schedSetCompletionState 7 STATE_MOTION_CHECK STATE_MOTION_CHECK,
        .traceEvt "pir: note queued"]) :=
  ⟨(pirPoll_transition 7 true true ⟨false, 3⟩).1 rfl,
   (pirPoll_transition 7 true true ⟨true, 5⟩).2.1 rfl,
   (pirPoll_transition 7 true true ⟨true, 0⟩).2.2.1 rfl,
   (pirPoll_transition 7 true true ⟨true, 5⟩).2.2.2 (by decide)⟩

/-- Counterexample to C5 as stated: `motionEvents` is a `uint32_t`, so with
the counter at `2 ^ 32 - 1` a wake-line interrupt wraps it to 0 instead of
increasing it by exactly one. -/
theorem pirISR_wrap_counterexample :
    (pirISR 0 PIR_DIRECT_LINK_Pin STATE_ACTIVATED
        ⟨false, 2 ^ 32 - 1⟩).1.motionEvents = 0
  ∧ (2 ^ 32 - 1 : Nat) + 1 ≠ 0 := by
  constructor
  · simp [pirISR, PIR_DIRECT_LINK_Pin]
  · norm_num

/-- Claim C5 (amended for `uint32_t` wraparound): `pirISR` acts only when the
wake-line bit is in the delivered pin set; then it increments the counter by
exactly one modulo `2 ^ 32`, re-arms the wake interrupt, and requests
immediate out-of-band activation into `STATE_MOTION_CHECK` exactly when the
scheduler reports the sensor deactivated.  Without the bit it changes
nothing, and `n` invocations with the bit set and no intervening report,
from a representable counter, raise the counter by exactly `n` modulo
`2 ^ 32` — by exactly `n` whenever no wraparound occurs
(`s.motionEvents + n < 2 ^ 32`). -/
theorem pirISR_spec (sensorID : Int) (pins : Nat) (schedState : Int) (s : PirState) :
    (pins &&& PIR_DIRECT_LINK_Pin ≠ 0 →
      pirISR sensorID pins schedState s =
        ({ s with motionEvents := (s.motionEvents + 1) % 2 ^ 32 },
         [.resetInterruptEvt] ++
           (if schedState = STATE_DEACTIVATED then
              [.schedActivateNowFromISR sensorID true STATE_MOTION_CHECK]
            else [])))
  ∧ (pins &&& PIR_DIRECT_LINK_Pin = 0 →
      pirISR sensorID pins schedState s = (s, []))
  ∧ (pins &&& PIR_DIRECT_LINK_Pin ≠ 0 → s.motionEvents < 2 ^ 32 → ∀ n,
      (pirISRIter n sensorID pins schedState s).motionEvents =
        (s.motionEvents + n) % 2 ^ 32)
  ∧ (pins &&& PIR_DIRECT_LINK_Pin ≠ 0 → s.motionEvents < 2 ^ 32 → ∀ n,
      s.motionEvents + n < 2 ^ 32 →
      (pirISRIter n sensorID pins schedState s).motionEvents =
        s.motionEvents + n) := by
  have key : pins &&& PIR_DIRECT_LINK_Pin ≠ 0 → ∀ (n : Nat) (u : PirState),
      u.motionEvents < 2 ^ 32 →
      (pirISRIter n sensorID pins schedState u).motionEvents =
        (u.motionEvents + n) % 2 ^ 32 := by
    intro h n
    induction n with
    | zero =>
        intro u hu
        simp only [pirISRIter]
        omega
    | succ m ih =>
        intro u hu
        have hstep : (pirISR sensorID pins schedState u).1 =
            { u with motionEvents := (u.motionEvents + 1) % 2 ^ 32 } := by
          simp [pirISR, h]
        have hih := ih { u with motionEvents := (u.motionEvents + 1) % 2 ^ 32 }
          (by simp; omega)
        simp only [pirISRIter, hstep, hih]
        omega
  refine ⟨fun h => by simp [pirISR, h], fun h => by simp [pirISR, h],
    fun h hs n => key h n s hs, fun h hs n hn => ?_⟩
  rw [key h n s hs]
  exact Nat.mod_eq_of_lt hn

/-- Witness for C5: the wake-line bit set and cleared on concrete pin sets,
and three consecutive interrupts from a counter of 4 (no wraparound). -/
theorem pirISR_spec_witness :
    pirISR 2 PIR_DIRECT_LINK_Pin STATE_DEACTIVATED ⟨false, 4⟩ =
      (⟨false, 5⟩,
       [.resetInterruptEvt, .schedActivateNowFromISR 2 true STATE_MOTION_CHECK])
  ∧ pirISR 2 0 STATE_DEACTIVATED ⟨false, 4⟩ = (⟨false, 4⟩, [])
  ∧ (pirISRIter 3 2 PIR_DIRECT_LINK_Pin STATE_DEACTIVATED ⟨false, 4⟩).motionEvents
      = 4 + 3 := by
  refine ⟨?_, ?_, ?_⟩
  · have h := (pirISR_spec 2 PIR_DIRECT_LINK_Pin STATE_DEACTIVATED ⟨false, 4⟩).1
      (by decide)
    simpa [STATE_DEACTIVATED] using h
  · exact (pirISR_spec 2 0 STATE_DEACTIVATED ⟨false, 4⟩).2.1 (by decide)
  · exact (pirISR_spec 2 PIR_DIRECT_LINK_Pin STATE_DEACTIVATED ⟨false, 4⟩).2.2.2
      (by decide) (by norm_num) 3 (by norm_num)

/-- Claim C6: `pirResponse` on a timeout returns with no state change; on a
response with a non-empty error string it returns with no state change (the
error check precedes the correlation-ID switch, so this holds even when that
response carries the template ID); on an error-free response carrying
`REQUESTID_TEMPLATE` it sets the template-registered flag — the only
state-mutating path, and the counter is never touched; on any other
correlation ID it returns with no state change; once the flag is true it
stays true. -/
theorem pirResponse_spec (s : PirState) (r : Rsp) :
    pirResponse none s = (s, [.traceEvt "pir: response timeout"])
  ∧ (r.err ≠ "" → pirResponse (some r) s =
      (s, [.traceEvt "sensor error response: ", .traceEvt r.err]))
  ∧ (r.err = "" → r.id = REQUESTID_TEMPLATE →
      pirResponse (some r) s =
        ({ s with templateRegistered := true },
         [.traceEvt "pir: SUCCESSFUL template registration"]))
  ∧ (r.err = "" → r.id ≠ REQUESTID_TEMPLATE → pirResponse (some r) s = (s, []))
  ∧ (∀ rsp, (pirResponse rsp s).1.motionEvents = s.motionEvents)
  ∧ (∀ rsp, s.templateRegistered = true →
      (pirResponse rsp s).1.templateRegistered = true) := by
  refine ⟨by simp [pirResponse], fun h => by simp [pirResponse, h],
    fun h1 h2 => by simp [pirResponse, h1, h2],
    fun h1 h2 => by simp [pirResponse, h1, h2], fun rsp => ?_, fun rsp h => ?_⟩
  · match rsp with
    | none => simp [pirResponse]
    | some r' =>
        by_cases h1 : r'.err = ""
        · by_cases h2 : r'.id = REQUESTID_TEMPLATE <;> simp [pirResponse, h1, h2]
        · simp [pirResponse, h1]
  · match rsp with
    | none => simpa [pirResponse] using h
    | some r' =>
        by_cases h1 : r'.err = ""
        · by_cases h2 : r'.id = REQUESTID_TEMPLATE <;>
            simp [pirResponse, h1, h2, h]
        · simpa [pirResponse, h1] using h

/-- Witness for C6: the error, matching-ID and foreign-ID cases at concrete
responses, and flag stability. -/
theorem pirResponse_spec_witness :
    pirResponse (some ⟨"boom", REQUESTID_TEMPLATE⟩) ⟨false, 2⟩ =
      (⟨false, 2⟩, [.traceEvt "sensor error response: ", .traceEvt "boom"])
  ∧ pirResponse (some ⟨"", REQUESTID_TEMPLATE⟩) ⟨false, 2⟩ =
      (⟨true, 2⟩, [.traceEvt "pir: SUCCESSFUL template registration"])
  ∧ pirResponse (some ⟨"", 9⟩) ⟨false, 2⟩ = (⟨false, 2⟩, [])
  ∧ (pirResponse none ⟨true, 2⟩).1.templateRegistered = true := by
  refine ⟨?_, ?_, ?_, ?_⟩
  · exact (pirResponse_spec ⟨false, 2⟩ ⟨"boom", REQUESTID_TEMPLATE⟩).2.1 (by decide)
  · exact (pirResponse_spec ⟨false, 2⟩ ⟨"", REQUESTID_TEMPLATE⟩).2.2.1 rfl rfl
  · exact (pirResponse_spec ⟨false, 2⟩ ⟨"", 9⟩).2.2.2.1 rfl (by decide)
  · exact (pirResponse_spec ⟨true, 2⟩ ⟨"", 9⟩).2.2.2.2.2 none rfl

/-- Claim C7: if the request or the body allocation fails inside
`registerNotefileTemplate` or `addNote`, the operation aborts the send
(no send effect), releases any partially built object (every recorded
allocation has a matching release), returns failure to the caller (the
boolean result of `registerNotefileTemplate`; `addNote` returns void in the
C), and has no side effects: the state — motion counter and
template-registered flag — passes through untouched. -/
theorem allocation_failure_no_side_effects (s : PirState) (bodyOk : Bool) :
    registerNotefileTemplate false bodyOk s = (false, s, [])
  ∧ registerNotefileTemplate true false s = (false, s, [.jAlloc, .jDelete])
  ∧ addNote false bodyOk s = (s, [])
  ∧ addNote true false s = (s, [.jAlloc, .jDelete])
  ∧ countAlloc (registerNotefileTemplate false bodyOk s).2.2 =
      countDelete (registerNotefileTemplate false bodyOk s).2.2
  ∧ countAlloc (registerNotefileTemplate true false s).2.2 =
      countDelete (registerNotefileTemplate true false s).2.2
  ∧ countAlloc (addNote false bodyOk s).2 = countDelete (addNote false bodyOk s).2
  ∧ countAlloc (addNote true false s).2 = countDelete (addNote true false s).2
  ∧ sends (registerNotefileTemplate false bodyOk s).2.2 = []
  ∧ sends (registerNotefileTemplate true false s).2.2 = []
  ∧ sends (addNote false bodyOk s).2 = []
  ∧ sends (addNote true false s).2 = [] := by
  refine ⟨?_, ?_, ?_, ?_, ?_, ?_, ?_, ?_, ?_, ?_, ?_, ?_⟩ <;>
    · simp [registerNotefileTemplate, addNote, countAlloc, countDelete, sends,
        List.count, List.countP, List.countP.go, List.filter]
      try decide

/-! ## Wake-interrupt re-arming (`resetInterrupt`, lines 165-186) -/

namespace Pir

/-- GPIO pin modes used by the driver (HAL constants, values opaque here). -/
inductive GpioMode where
  | outputPP
  | input
  | itRising
deriving DecidableEq

/-- GPIO pull configuration. -/
inductive GpioPull where
  | nopull
  | pulldown
deriving DecidableEq

/-- GPIO speed configuration. -/
inductive GpioSpeed where
  | low
  | high
deriving DecidableEq

/-- Electrical and interrupt configuration of the wake-line pin. -/
structure DirectLinkConfig where
  mode : GpioMode
  pull : GpioPull
  speed : GpioSpeed
  priority : Nat
  irqEnabled : Bool
deriving DecidableEq

/-- Embedding of `resetInterrupt` (lines 165-186): re-initialise the wake pin as a
push-pull no-pull low-speed output, drive it low and hold for 250µs, then
re-initialise it as a pulled-down rising-edge-interrupt high-speed input, set
the fixed NVIC priority and enable the IRQ.  Returns the final configuration
and the `(level, microseconds)` drive trace. -/
def resetInterrupt (c : DirectLinkConfig) : DirectLinkConfig × List (Bool × Nat) :=
  let c1 : DirectLinkConfig :=
    { c with mode := .outputPP, pull := .nopull, speed := .low }
  let driveTrace : List (Bool × Nat) := [(false, 250)]
  let c2 : DirectLinkConfig :=
    { c1 with mode := .itRising, pull := .pulldown, speed := .high }
  let c3 : DirectLinkConfig :=
    { c2 with priority := PIR_DIRECT_LINK_IT_PRIORITY, irqEnabled := true }
  (c3, driveTrace)

/-- The configuration `resetInterrupt` leaves behind: pulled-down
rising-edge-interrupt input at the fixed priority, IRQ enabled. -/
def armedDirectLinkConfig : DirectLinkConfig :=
  { mode := .itRising, pull := .pulldown, speed := .high,
    priority := PIR_DIRECT_LINK_IT_PRIORITY, irqEnabled := true }

/-- Iterate `n` consecutive `resetInterrupt` calls, tracking the configuration. -/
def resetInterruptIter : Nat → DirectLinkConfig → DirectLinkConfig
  | 0, c => c
  | n + 1, c => resetInterruptIter n (resetInterrupt c).1

end Pir

/-- Claim C8: `resetInterrupt` is idempotent — for every `n ≥ 1` the
configuration left by `n` consecutive calls equals that left by one call: the
wake pin ends as a pulled-down rising-edge-interrupt input at the fixed
priority with the IRQ enabled, after having been driven low for 250µs ≥ 35µs. -/
theorem resetInterrupt_idempotent (n : Nat) (c : DirectLinkConfig) (h : 1 ≤ n) :
    resetInterruptIter n c = (resetInterrupt c).1
  ∧ (resetInterrupt c).1 = armedDirectLinkConfig
  ∧ (resetInterrupt c).2 = [(false, 250)]
  ∧ 35 ≤ 250 := by
  have hone : ∀ d : DirectLinkConfig, (resetInterrupt d).1 = armedDirectLinkConfig := by
    intro d
    simp [resetInterrupt, armedDirectLinkConfig]
  have hiter : ∀ m d, resetInterruptIter (m + 1) d = armedDirectLinkConfig := by
    intro m
    induction m with
    | zero => intro d; simp [resetInterruptIter, hone]
    | succ k ih => intro d; simpa [resetInterruptIter] using ih (resetInterrupt d).1
  obtain ⟨m, rfl⟩ : ∃ m, n = m + 1 := ⟨n - 1, by omega⟩
  exact ⟨by rw [hiter m c, hone c], hone c, rfl, by norm_num⟩

/-- Witness for C8: three consecutive calls starting from a scrambled
configuration coincide with a single call. -/
theorem resetInterrupt_idempotent_witness :
    resetInterruptIter 3 ⟨.outputPP, .nopull, .low, 0, false⟩ =
      (resetInterrupt ⟨.outputPP, .nopull, .low, 0, false⟩).1
  ∧ (resetInterrupt ⟨.outputPP, .nopull, .low, 0, false⟩).1 = armedDirectLinkConfig
  ∧ (resetInterrupt ⟨.outputPP, .nopull, .low, 0, false⟩).2 = [(false, 250)]
  ∧ 35 ≤ 250 :=
  resetInterrupt_idempotent 3 ⟨.outputPP, .nopull, .low, 0, false⟩ (by norm_num)

/-- Claim C9: for every state value other than `STATE_ACTIVATED` and
`STATE_MOTION_CHECK` (for example `STATE_DEACTIVATED`), `pirPoll` is a no-op:
the state (counter and flag) is returned unchanged and no effect — no send,
no scheduler call, no trace — is produced. -/
theorem pirPoll_other_state_noop (sensorID state : Int) (reqOk bodyOk : Bool)
    (s : PirState) (h1 : state ≠ STATE_ACTIVATED) (h2 : state ≠ STATE_MOTION_CHECK) :
    pirPoll sensorID state reqOk bodyOk s = (s, []) := by
  simp [pirPoll, h1, h2]

/-- Witness for C9: `STATE_DEACTIVATED` at a concrete state. -/
theorem pirPoll_other_state_noop_witness :
    pirPoll 4 STATE_DEACTIVATED true true ⟨false, 6⟩ = (⟨false, 6⟩, []) :=
  pirPoll_other_state_noop 4 STATE_DEACTIVATED true true ⟨false, 6⟩
    (by decide) (by decide)

/-- Claim C10: when `registerNotefileTemplate` fails because an allocation
failed, `pirPoll` in `STATE_ACTIVATED` ignores the failure: the
scheduler-visible effects (scheduler calls and trace output) are the
completion-state request from `STATE_ACTIVATED` to `STATE_MOTION_CHECK`
followed by the registration log line, identical to the success case, and
the state is unchanged — the scheduler cannot distinguish a failed
registration attempt from a sent one. -/
theorem pirPoll_ignores_registration_failure (sensorID : Int)
    (reqOk bodyOk : Bool) (s : PirState) (h : s.templateRegistered = false) :
    schedulerView (pirPoll sensorID STATE_ACTIVATED reqOk bodyOk s).2 =
      [.schedSetCompletionState sensorID STATE_ACTIVATED STATE_MOTION_CHECK,
       .traceEvt "pir: template registration request"]
  ∧ schedulerView (pirPoll sensorID STATE_ACTIVATED reqOk bodyOk s).2 =
      schedulerView (pirPoll sensorID STATE_ACTIVATED true true s).2
  ∧ (pirPoll sensorID STATE_ACTIVATED reqOk bodyOk s).1 = s := by
  cases reqOk <;> cases bodyOk <;>
    simp [pirPoll, registerNotefileTemplate, schedulerView, List.filter, h,
      STATE_ACTIVATED, STATE_MOTION_CHECK]

/-- Witness for C10: both allocations failing versus succeeding. -/
theorem pirPoll_ignores_registration_failure_witness :
    schedulerView (pirPoll 9 STATE_ACTIVATED false false ⟨false, 1⟩).2 =
      [.schedSetCompletionState 9 STATE_ACTIVATED STATE_MOTION_CHECK,
       .traceEvt "pir: template registration request"]
  ∧ schedulerView (pirPoll 9 STATE_ACTIVATED false false ⟨false, 1⟩).2 =
      schedulerView (pirPoll 9 STATE_ACTIVATED true true ⟨false, 1⟩).2
  ∧ (pirPoll 9 STATE_ACTIVATED false false ⟨false, 1⟩).1 = (⟨false, 1⟩ : PirState) :=
  pirPoll_ignores_registration_failure 9 false false ⟨false, 1⟩ rfl
